import Mathlib

/-!
Shallow embedding of `src/app.py`, a Flask travel-spot CRUD application.

The persisted database state is modelled as a list of `Spot` records (the
`spot` table) together with a list of `User` records (the `user` table).
Each Flask view function becomes a pure Lean function from the requesting
user's id, the request data and the current store to a `Response` paired
with the store after the request (the store is unchanged whenever the
handler does not reach `db.session.commit()`).

Latitude/longitude values are modelled as exact rationals (`ℚ`): the
claims under study concern which value is stored and returned, not IEEE
rounding, and every numeral involved is handled identically by both
representations for the properties proved here.
-/

namespace TravelApp

/-- A row of the `Spot` table (`src/app.py` lines 45-52): id, required name,
optional city/comment/lat/lng, and the owning user's id (`user_id`). -/
structure Spot where
  id : Nat
  name : String
  city : Option String
  comment : Option String
  lat : Option ℚ
  lng : Option ℚ
  user_id : Nat
deriving Repr, DecidableEq

/-- A row of the `User` table (`src/app.py` lines 34-37):
`password` holds the stored password hash, never the plaintext. -/
structure User where
  id : Nat
  username : String
  password : String
deriving Repr, DecidableEq

/-- The persisted spot table. -/
abbrev Store := List Spot

/-- Parse a list of decimal digit characters as a natural number
(empty list parses as 0; helper for `pyFloat?`). -/
def natOfDigits : List Char → Nat :=
  List.foldl (fun n c => 10 * n + (c.toNat - 48)) 0

/-- Model of Python's built-in `float` on strings, restricted to plain
decimal literals: an optional sign followed by digits with an optional
fractional part (at least one digit overall).  Exponent, `inf`/`nan` and
surrounding-whitespace forms of `float` are not modelled; on every string
the claims exercise this agrees with `float`.  Returns `none` exactly when
`float` raises `ValueError` on the modelled fragment. -/
def pyFloat? (s : String) : Option ℚ :=
  let step : List Char → Option ℚ := fun cs =>
    match cs.span Char.isDigit with
    | (intPart, []) =>
        if intPart.isEmpty then none
        else some ((natOfDigits intPart : ℚ))
    | (intPart, '.' :: fracPart) =>
        if fracPart.all Char.isDigit ∧ ¬(intPart.isEmpty ∧ fracPart.isEmpty) then
          some ((natOfDigits intPart : ℚ) +
                (natOfDigits fracPart : ℚ) / ((10 : ℚ) ^ fracPart.length))
        else none
    | _ => none
  match s.data with
  | '-' :: rest => (step rest).map (fun q => -q)
  | '+' :: rest => step rest
  | rest => step rest

/-- Model of `float(v) if v else None` applied to `request.form.get(...)`
(`src/app.py` lines 124-125 and 150-151): an absent field (`None`) or an
empty string is falsy in Python and yields `None`; a non-empty string is
passed to `float`, whose `ValueError` on a non-numeric string is an
unhandled exception, modelled as `Except.error` carrying the offending
string. -/
def parseCoord : Option String → Except String (Option ℚ)
  | none => Except.ok none
  | some s =>
      if s = "" then Except.ok none
      else
        match pyFloat? s with
        | some q => Except.ok (some q)
        | none => Except.error s

/-- The form fields read by `add_spot`/`edit_spot`: `name` via
`request.form['name']` (a required key), the rest via `request.form.get`. -/
structure SpotForm where
  name : String
  city : Option String
  comment : Option String
  lat : Option String
  lng : Option String
deriving Repr, DecidableEq

/-- The observable outcome of a request, as far as this model needs:
a redirect to the listing carrying the flashed notice, a render of the
add/edit form (with the prefilled spot, if any), Flask's 404 page from
`get_or_404`, or an unhandled fatal error (the `ValueError` of `float`). -/
inductive Response where
  | redirectIndex (notice : String)
  | renderForm (spot : Option Spot)
  | notFound
  | fatalError (badInput : String)
deriving Repr, DecidableEq

/-- HTTP method of a request to a GET/POST route. -/
inductive Method where
  | get
  | post
deriving Repr, DecidableEq

/-- Primary-key lookup, `Spot.query.get_or_404(id)`. -/
def getById (store : Store) (id : Nat) : Option Spot :=
  store.find? (fun s => s.id = id)

/-- Fresh primary key assigned by the database on insert: one more than the
largest id in the table (SQLite `INTEGER PRIMARY KEY` behaviour). -/
def nextId (store : Store) : Nat :=
  store.foldr (fun s m => max s.id m) 0 + 1

/-- Test whether `pat` occurs at the head of `l`. -/
def startsWithL : List Char → List Char → Bool
  | [], _ => true
  | _ :: _, [] => false
  | p :: ps, c :: cs => p = c && startsWithL ps cs

/-- Test whether `pat` occurs contiguously somewhere in `l`. -/
def containsSubL (pat : List Char) : List Char → Bool
  | [] => pat.isEmpty
  | c :: cs => startsWithL pat (c :: cs) || containsSubL pat cs

/-- `Spot.city.contains(city)` (`src/app.py` line 70): case-sensitive
substring test on the stored city.  The storage engine's collation is an
out-of-scope external collaborator; the Python-level `contains` criterion
is a plain substring match, and an SQL `NULL` city matches no filter. -/
def cityMatches (city : Option String) (filt : String) : Bool :=
  match city with
  | none => false
  | some c => containsSubL filt.data c.data

/-- The `index` view (`src/app.py` lines 64-72): spots owned by the current
user, narrowed by the `city` query parameter when it is truthy (present and
non-empty). -/
def index (uid : Nat) (cityFilter : Option String) (store : Store) : List Spot :=
  let base := store.filter (fun s => s.user_id = uid)
  match cityFilter with
  | none => base
  | some c => if c = "" then base else base.filter (fun s => cityMatches s.city c)

/-- The `map_view` view (`src/app.py` lines 175-179): all spots owned by
the current user, handed to the map template. -/
def map_view (uid : Nat) (store : Store) : List Spot :=
  store.filter (fun s => s.user_id = uid)

/-- Lookup by username, `User.query.filter_by(username=...).first()`. -/
def findByUsername (users : List User) (name : String) : Option User :=
  users.find? (fun u => u.username = name)

/-- Model of werkzeug's `generate_password_hash`, an out-of-scope
credential primitive: an injective tagging of the plaintext, so that
`check_password_hash(stored, given)` is `stored = hashPassword given`. -/
def hashPassword (p : String) : String :=
  String.append "pbkdf2$" p

/-- Password check, `User.check_password` (`src/app.py` lines 42-43). -/
def checkPassword (u : User) (p : String) : Bool :=
  u.password = hashPassword p

/-- Outcome of a POST to `/login`: either the session becomes bound to the
matched user's id, or the caller stays anonymous and the login page is
re-rendered with the flashed notice. -/
inductive LoginOutcome where
  | success (uid : Nat)
  | failure (notice : String)
deriving Repr, DecidableEq

/-- The POST branch of the `login` view (`src/app.py` lines 76-86):
`if user and user.check_password(password)` logs the user in, any other
case flashes the one generic notice and re-renders the form. -/
def login (users : List User) (username password : String) : LoginOutcome :=
  match findByUsername users username with
  | some u =>
      if checkPassword u password then LoginOutcome.success u.id
      else LoginOutcome.failure "帳號或密碼錯誤"
  | none => LoginOutcome.failure "帳號或密碼錯誤"

/-- Marker for a login attempt that did not bind the session to a user. -/
def isFailure : LoginOutcome → Bool
  | LoginOutcome.success _ => false
  | LoginOutcome.failure _ => true

/-- The POST branch of the `add_spot` view (`src/app.py` lines 116-131):
build the new `Spot` from the form (the `float` calls on `lat` then `lng`
may raise, aborting before any insert), insert it with a fresh id, commit,
flash and redirect to the listing. -/
def add_spot (uid : Nat) (form : SpotForm) (store : Store) : Response × Store :=
  match parseCoord form.lat with
  | Except.error m => (Response.fatalError m, store)
  | Except.ok latv =>
    match parseCoord form.lng with
    | Except.error m => (Response.fatalError m, store)
    | Except.ok lngv =>
        let spot : Spot :=
          { id := nextId store
            name := form.name
            city := form.city
            comment := form.comment
            lat := latv
            lng := lngv
            user_id := uid }
        (Response.redirectIndex "新增成功", store ++ [spot])

/-- The `edit_spot` view (`src/app.py` lines 137-155): 404 when the id is
absent, ownership gate before anything else, then GET renders the prefilled
form while POST overwrites the record's fields (a `float` failure aborts
before the commit, leaving the persisted store unchanged) and redirects. -/
def edit_spot (uid id : Nat) (method : Method) (form : SpotForm)
    (store : Store) : Response × Store :=
  match getById store id with
  | none => (Response.notFound, store)
  | some spot =>
    if spot.user_id ≠ uid then
      (Response.redirectIndex "沒有權限編輯此景點", store)
    else
      match method with
      | Method.get => (Response.renderForm (some spot), store)
      | Method.post =>
        match parseCoord form.lat with
        | Except.error m => (Response.fatalError m, store)
        | Except.ok latv =>
          match parseCoord form.lng with
          | Except.error m => (Response.fatalError m, store)
          | Except.ok lngv =>
              let spot' : Spot :=
                { spot with
                  name := form.name
                  city := form.city
                  comment := form.comment
                  lat := latv
                  lng := lngv }
              (Response.redirectIndex "更新成功",
               store.map (fun s => if s.id = id then spot' else s))

/-- The `delete_spot` view (`src/app.py` lines 160-170): 404 when the id is
absent, ownership gate, then the row is deleted, committed, and the caller
is redirected to the listing. -/
def delete_spot (uid id : Nat) (store : Store) : Response × Store :=
  match getById store id with
  | none => (Response.notFound, store)
  | some spot =>
    if spot.user_id ≠ uid then
      (Response.redirectIndex "沒有權限刪除此景點", store)
    else
      (Response.redirectIndex "刪除成功", store.filter (fun s => s.id ≠ id))

theorem parseCoord_none : parseCoord none = Except.ok none := rfl

theorem parseCoord_91 : parseCoord (some "91") = Except.ok (some 91) := rfl

theorem parseCoord_35 : parseCoord (some "35.0") = Except.ok (some 35) := by
  rw [show parseCoord (some "35.0")
        = Except.ok (some ((35 : ℚ) + (0 : ℚ) / (10 : ℚ) ^ (1 : ℕ))) from rfl]
  norm_num

theorem parseCoord_1358 : parseCoord (some "135.8") = Except.ok (some (679 / 5)) := by
  rw [show parseCoord (some "135.8")
        = Except.ok (some ((135 : ℚ) + (8 : ℚ) / (10 : ℚ) ^ (1 : ℕ))) from rfl]
  norm_num

theorem getById_erased (store : Store) (id : Nat) :
    getById (store.filter (fun s => s.id ≠ id)) id = none := by
  unfold getById
  rw [List.find?_eq_none]
  intro x hx
  simp only [List.mem_filter] at hx
  simpa using hx.2

theorem getById_replace (store : Store) (id : Nat) (spot' : Spot)
    (hfind : (getById store id).isSome = true) (hid : spot'.id = id) :
    getById (store.map (fun s => if s.id = id then spot' else s)) id = some spot' := by
  induction store with
  | nil => simp [getById] at hfind
  | cons h t ih =>
      by_cases hh : h.id = id
      · simp [getById, List.find?_cons, hh, hid]
      · have hf : (getById t id).isSome = true := by
          simpa [getById, List.find?_cons, hh] using hfind
        simpa [getById, List.find?_cons, hh] using ih hf

/-- C1: for every spot and every authenticated user other than the spot's
owner, GET and POST on `/edit/<id>` and GET on `/delete/<id>` stop at the
ownership gate: the response is a redirect to the listing carrying the
permission-denied notice (so no spot data is returned) and the store is
handed back as the state, regardless of the submitted form. -/
theorem nonowner_edit_delete_forbidden
    (store : Store) (uid id : Nat) (spot : Spot) (method : Method) (form : SpotForm)
    (hfind : getById store id = some spot) (hown : spot.user_id ≠ uid) :
    edit_spot uid id method form store
      = (Response.redirectIndex "沒有權限編輯此景點", store) ∧
    delete_spot uid id store
      = (Response.redirectIndex "沒有權限刪除此景點", store) := by
  unfold edit_spot delete_spot
  rw [hfind]
  simp [hown]

/-- Witness for C1 at a concrete store: user 8 is rejected from editing and
deleting user 7's spot. -/
theorem nonowner_edit_delete_forbidden_witness :
    edit_spot 8 1 Method.post ⟨"Hack", none, none, none, none⟩
        [⟨1, "Alps", none, none, none, none, 7⟩]
      = (Response.redirectIndex "沒有權限編輯此景點",
         [⟨1, "Alps", none, none, none, none, 7⟩]) ∧
    delete_spot 8 1 [⟨1, "Alps", none, none, none, none, 7⟩]
      = (Response.redirectIndex "沒有權限刪除此景點",
         [⟨1, "Alps", none, none, none, none, 7⟩]) :=
  nonowner_edit_delete_forbidden [⟨1, "Alps", none, none, none, none, 7⟩] 8 1
    ⟨1, "Alps", none, none, none, none, 7⟩ Method.post ⟨"Hack", none, none, none, none⟩
    (by decide) (by decide)

/-- C10: when `/edit/<id>` or `/delete/<id>` is rejected at the ownership
gate, the handler never reaches `db.session.commit()`, so the persisted
store is exactly the one before the request: the targeted spot is still
present unchanged and every other row is untouched. -/
theorem forbidden_mutation_preserves_store
    (store : Store) (uid id : Nat) (spot : Spot) (method : Method) (form : SpotForm)
    (hfind : getById store id = some spot) (hown : spot.user_id ≠ uid) :
    (edit_spot uid id method form store).2 = store ∧
    (delete_spot uid id store).2 = store ∧
    getById (edit_spot uid id method form store).2 id = some spot ∧
    getById (delete_spot uid id store).2 id = some spot := by
  unfold edit_spot delete_spot
  rw [hfind]
  simp [hown, hfind]

/-- Witness for C10 at a concrete store: user 3's rejected requests on user
2's spot leave the two-row store intact. -/
theorem forbidden_mutation_preserves_store_witness :
    (edit_spot 3 10 Method.get ⟨"", none, none, none, none⟩
       [⟨10, "Bay", some "Keelung", none, none, none, 2⟩,
        ⟨11, "Pier", none, none, none, none, 3⟩]).2
      = [⟨10, "Bay", some "Keelung", none, none, none, 2⟩,
         ⟨11, "Pier", none, none, none, none, 3⟩] ∧
    (delete_spot 3 10
       [⟨10, "Bay", some "Keelung", none, none, none, 2⟩,
        ⟨11, "Pier", none, none, none, none, 3⟩]).2
      = [⟨10, "Bay", some "Keelung", none, none, none, 2⟩,
         ⟨11, "Pier", none, none, none, none, 3⟩] := by
  have h := forbidden_mutation_preserves_store
    [⟨10, "Bay", some "Keelung", none, none, none, 2⟩,
     ⟨11, "Pier", none, none, none, none, 3⟩] 3 10
    ⟨10, "Bay", some "Keelung", none, none, none, 2⟩ Method.get
    ⟨"", none, none, none, none⟩ (by decide) (by decide)
  exact ⟨h.1, h.2.1⟩

/-- C6: deleting an id absent from the store yields the 404 outcome of
`get_or_404` and changes nothing; after an owner deletes a spot, the same
delete request again finds no row and yields 404 — deletion is not
idempotent. -/
theorem delete_absent_notfound_second_delete_fails :
    (∀ (uid id : Nat) (store : Store), getById store id = none →
        delete_spot uid id store = (Response.notFound, store)) ∧
    (∀ (uid id : Nat) (store : Store) (spot : Spot),
        getById store id = some spot → spot.user_id = uid →
        (delete_spot uid id store).1 = Response.redirectIndex "刪除成功" ∧
        delete_spot uid id (delete_spot uid id store).2
          = (Response.notFound, (delete_spot uid id store).2)) := by
  constructor
  · intro uid id store h
    unfold delete_spot
    rw [h]
  · intro uid id store spot hfind hown
    have h1 : delete_spot uid id store
        = (Response.redirectIndex "刪除成功", store.filter (fun s => s.id ≠ id)) := by
      unfold delete_spot
      rw [hfind]
      simp [hown]
    rw [h1]
    refine ⟨rfl, ?_⟩
    unfold delete_spot
    rw [getById_erased]

/-- Witness for C6: deleting id 5 from an empty store is NotFound, and after
user 7 deletes spot 1, repeating the delete is NotFound on the emptied
store. -/
theorem delete_absent_notfound_second_delete_fails_witness :
    delete_spot 1 5 [] = (Response.notFound, []) ∧
    delete_spot 7 1 (delete_spot 7 1 [⟨1, "Alps", none, none, none, none, 7⟩]).2
      = (Response.notFound, (delete_spot 7 1 [⟨1, "Alps", none, none, none, none, 7⟩]).2) :=
  ⟨delete_absent_notfound_second_delete_fails.1 1 5 [] (by decide),
   (delete_absent_notfound_second_delete_fails.2 7 1
      [⟨1, "Alps", none, none, none, none, 7⟩]
      ⟨1, "Alps", none, none, none, none, 7⟩ (by decide) (by decide)).2⟩

/-- Any failed login yields the one generic notice of `src/app.py` line 85. -/
theorem login_failure_generic (users : List User) (n pw : String)
    (h : isFailure (login users n pw) = true) :
    login users n pw = LoginOutcome.failure "帳號或密碼錯誤" := by
  unfold login at h ⊢
  cases hf : findByUsername users n with
  | none => rfl
  | some u =>
      rw [hf] at h
      by_cases hc : checkPassword u pw
      · simp [hc, isFailure] at h
      · simp [hc]

/-- C9: two failed login attempts are observationally identical — whether
the username is unknown (`findByUsername` misses) or the password check
fails, the caller sees the same flashed notice and no session binding, so
no username-enumeration distinction is exposed. -/
theorem failed_login_indistinguishable
    (users users' : List User) (n pw n' pw' : String)
    (h : isFailure (login users n pw) = true)
    (h' : isFailure (login users' n' pw') = true) :
    login users n pw = login users' n' pw' ∧
    login users n pw = LoginOutcome.failure "帳號或密碼錯誤" :=
  ⟨(login_failure_generic users n pw h).trans
     (login_failure_generic users' n' pw' h').symm,
   login_failure_generic users n pw h⟩

/-- Witness for C9: against a store holding alice, the unknown-user attempt
and the wrong-password attempt produce the very same outcome. -/
theorem failed_login_indistinguishable_witness :
    login [⟨1, "alice", hashPassword "pw1"⟩] "bob" "pw1"
      = login [⟨1, "alice", hashPassword "pw1"⟩] "alice" "wrong" :=
  (failed_login_indistinguishable
    [⟨1, "alice", hashPassword "pw1"⟩] [⟨1, "alice", hashPassword "pw1"⟩]
    "bob" "pw1" "alice" "wrong" (by decide) (by decide)).1

/-- Spots listed by `index` are owned by the requesting user, whatever the
city filter. -/
theorem mem_index_owner (uid : Nat) (f : Option String) (store : Store)
    (s : Spot) (h : s ∈ index uid f store) : s.user_id = uid := by
  unfold index at h
  cases f with
  | none => simpa using (List.mem_filter.mp h).2
  | some c =>
      by_cases hc : c = ""
      · simp [hc, List.mem_filter] at h
        exact h.2
      · simp [hc, List.mem_filter] at h
        exact h.2.2

/-- C7: every stored spot appears in its owner's listing and map view, and
never in any other user's listing (under any city filter) or map view:
both queries filter on `user_id == current_user.id`. -/
theorem listing_scoped_to_owner (store : Store) (s : Spot) (h : s ∈ store) :
    s ∈ index s.user_id none store ∧
    s ∈ map_view s.user_id store ∧
    (∀ v, v ≠ s.user_id →
      (∀ f, s ∉ index v f store) ∧ s ∉ map_view v store) := by
  refine ⟨?_, ?_, ?_⟩
  · unfold index
    exact List.mem_filter.mpr ⟨h, by simp⟩
  · exact List.mem_filter.mpr ⟨h, by simp⟩
  · intro v hv
    constructor
    · intro f hmem
      exact hv ((mem_index_owner v f store s hmem).symm)
    · intro hmem
      have h2 : s.user_id = v := by simpa using (List.mem_filter.mp hmem).2
      exact hv h2.symm

/-- Witness for C7: user 7's spot shows in user 7's listing and map and in
neither of user 8's. -/
theorem listing_scoped_to_owner_witness :
    (⟨1, "Alps", none, none, none, none, 7⟩ : Spot)
        ∈ index 7 none [⟨1, "Alps", none, none, none, none, 7⟩] ∧
    (⟨1, "Alps", none, none, none, none, 7⟩ : Spot)
        ∉ index 8 none [⟨1, "Alps", none, none, none, none, 7⟩] ∧
    (⟨1, "Alps", none, none, none, none, 7⟩ : Spot)
        ∉ map_view 8 [⟨1, "Alps", none, none, none, none, 7⟩] := by
  have h := listing_scoped_to_owner [⟨1, "Alps", none, none, none, none, 7⟩]
    ⟨1, "Alps", none, none, none, none, 7⟩ (List.mem_singleton.mpr rfl)
  have h8 : (8 : Nat) ≠ (⟨1, "Alps", none, none, none, none, 7⟩ : Spot).user_id := by
    decide
  exact ⟨h.1, (h.2.2 8 h8).1 none, (h.2.2 8 h8).2⟩

theorem getById_id (store : Store) (id : Nat) (spot : Spot)
    (h : getById store id = some spot) : spot.id = id := by
  unfold getById at h
  have := List.find?_some h
  simpa using this

/-- C2: in `add_spot` and `edit_spot`, for each of the `lat` and `lng` form
inputs: an absent field or the empty string yields `None` for the stored
field; a non-empty string that `float` cannot parse raises, and the raised
error propagates out of the handler uncaught (no user-facing validation
message), leaving the store unchanged. -/
theorem coord_parse_and_fatal_propagation :
    (parseCoord none = Except.ok none ∧ parseCoord (some "") = Except.ok none) ∧
    (∀ s : String, s ≠ "" → pyFloat? s = none →
        parseCoord (some s) = Except.error s) ∧
    (∀ (uid : Nat) (form : SpotForm) (store : Store) (m : String),
        parseCoord form.lat = Except.error m →
        add_spot uid form store = (Response.fatalError m, store)) ∧
    (∀ (uid : Nat) (form : SpotForm) (store : Store) (v : Option ℚ) (m : String),
        parseCoord form.lat = Except.ok v → parseCoord form.lng = Except.error m →
        add_spot uid form store = (Response.fatalError m, store)) ∧
    (∀ (uid id : Nat) (spot : Spot) (form : SpotForm) (store : Store) (m : String),
        getById store id = some spot → spot.user_id = uid →
        parseCoord form.lat = Except.error m →
        edit_spot uid id Method.post form store = (Response.fatalError m, store)) ∧
    (∀ (uid id : Nat) (spot : Spot) (form : SpotForm) (store : Store)
        (v : Option ℚ) (m : String),
        getById store id = some spot → spot.user_id = uid →
        parseCoord form.lat = Except.ok v → parseCoord form.lng = Except.error m →
        edit_spot uid id Method.post form store = (Response.fatalError m, store)) := by
  refine ⟨⟨rfl, rfl⟩, ?_, ?_, ?_, ?_, ?_⟩
  · intro s hs hf
    simp [parseCoord, hs, hf]
  · intro uid form store m hlat
    simp [add_spot, hlat]
  · intro uid form store v m hlat hlng
    simp [add_spot, hlat, hlng]
  · intro uid id spot form store m hfind hown hlat
    unfold edit_spot
    rw [hfind]
    simp [hown, hlat]
  · intro uid id spot form store v m hfind hown hlat hlng
    unfold edit_spot
    rw [hfind]
    simp [hown, hlat, hlng]

/-- Witness for C2: the non-numeric strings abc and 12..3 are fatal in
create and update respectively, with the store handed back unchanged. -/
theorem coord_parse_and_fatal_propagation_witness :
    parseCoord (some "abc") = Except.error "abc" ∧
    add_spot 1 ⟨"X", none, none, some "abc", none⟩ []
      = (Response.fatalError "abc", []) ∧
    edit_spot 7 1 Method.post ⟨"X", none, none, none, some "12..3"⟩
        [⟨1, "Alps", none, none, none, none, 7⟩]
      = (Response.fatalError "12..3", [⟨1, "Alps", none, none, none, none, 7⟩]) := by
  refine ⟨?_, ?_, ?_⟩
  · exact coord_parse_and_fatal_propagation.2.1 "abc" (by decide) rfl
  · exact coord_parse_and_fatal_propagation.2.2.1 1
      ⟨"X", none, none, some "abc", none⟩ [] "abc" rfl
  · exact coord_parse_and_fatal_propagation.2.2.2.2.2 7 1
      ⟨1, "Alps", none, none, none, none, 7⟩
      ⟨"X", none, none, none, some "12..3"⟩
      [⟨1, "Alps", none, none, none, none, 7⟩] none "12..3"
      (by decide) (by decide) rfl rfl

/-- C3: for a non-empty city filter, `index` returns exactly the requesting
user's spots whose stored city contains the filter as a case-sensitive
substring; concretely Taipei is matched by filter Tai and not by tai. -/
theorem city_filter_case_sensitive_substring :
    (∀ (uid : Nat) (c : String) (store : Store) (s : Spot), c ≠ "" →
        (s ∈ index uid (some c) store ↔
          s ∈ store ∧ s.user_id = uid ∧ cityMatches s.city c = true)) ∧
    cityMatches (some "Taipei") "Tai" = true ∧
    cityMatches (some "Taipei") "tai" = false ∧
    index 1 (some "Tai") [⟨1, "101", some "Taipei", none, none, none, 1⟩]
      = [⟨1, "101", some "Taipei", none, none, none, 1⟩] ∧
    index 1 (some "tai") [⟨1, "101", some "Taipei", none, none, none, 1⟩] = [] := by
  refine ⟨?_, by decide, by decide, by decide, by decide⟩
  intro uid c store s hc
  simp [index, hc, List.mem_filter]
  tauto

/-- Witness for C3: the membership characterisation applied at the Taipei
spot and the filter Tai. -/
theorem city_filter_case_sensitive_substring_witness :
    (⟨1, "101", some "Taipei", none, none, none, 1⟩ : Spot)
      ∈ index 1 (some "Tai") [⟨1, "101", some "Taipei", none, none, none, 1⟩] := by
  have h := (city_filter_case_sensitive_substring.1 1 "Tai"
    [⟨1, "101", some "Taipei", none, none, none, 1⟩]
    ⟨1, "101", some "Taipei", none, none, none, 1⟩ (by decide)).mpr
  exact h ⟨List.mem_singleton.mpr rfl, rfl, by decide⟩

/-- C4 counterexample: the claim says creating a spot with an empty name
fails with ValidationError and inserts nothing, but `add_spot` performs no
name validation: on an empty store, user 1 submitting an empty name gets
the success redirect and the spot is inserted with `name = ""`. -/
theorem empty_name_create_succeeds_cex :
    add_spot 1 ⟨"", some "Kyoto", none, none, none⟩ []
      = (Response.redirectIndex "新增成功",
         [⟨1, "", some "Kyoto", none, none, none, 1⟩]) ∧
    (add_spot 1 ⟨"", some "Kyoto", none, none, none⟩ []).2 ≠ [] := by
  decide

/-- C4 amended: for every authenticated user, creating a spot with an empty
name succeeds (no ValidationError, no validation at all): whenever the
coordinate fields parse, the spot is inserted with the empty name and the
handler redirects with the success notice. -/
theorem empty_name_create_inserts (uid : Nat) (form : SpotForm) (store : Store)
    (la ln : Option ℚ)
    (hname : form.name = "")
    (hlat : parseCoord form.lat = Except.ok la)
    (hlng : parseCoord form.lng = Except.ok ln) :
    add_spot uid form store
      = (Response.redirectIndex "新增成功",
         store ++ [⟨nextId store, "", form.city, form.comment, la, ln, uid⟩]) := by
  simp [add_spot, hlat, hlng, hname]

/-- Witness for C4's amended statement at a concrete empty-name form. -/
theorem empty_name_create_inserts_witness :
    add_spot 2 ⟨"", none, none, none, none⟩ []
      = (Response.redirectIndex "新增成功", [⟨1, "", none, none, none, none, 2⟩]) := by
  exact empty_name_create_inserts 2 ⟨"", none, none, none, none⟩ [] none none
    rfl rfl rfl

/-- C5: an owner updating a spot with the form value lat equal to the
string 91 succeeds and stores latitude 91 even though 91 exceeds the valid
latitude bound 90: `edit_spot` applies no range validation. -/
theorem edit_out_of_range_lat_stored
    (uid id : Nat) (store : Store) (spot : Spot) (n : String) (c cm : Option String)
    (hfind : getById store id = some spot) (hown : spot.user_id = uid) :
    edit_spot uid id Method.post ⟨n, c, cm, some "91", none⟩ store
      = (Response.redirectIndex "更新成功",
         store.map (fun s => if s.id = id then
           { spot with
             name := n
             city := c
             comment := cm
             lat := some 91
             lng := none } else s)) ∧
    getById (edit_spot uid id Method.post ⟨n, c, cm, some "91", none⟩ store).2 id
      = some { spot with
          name := n
          city := c
          comment := cm
          lat := some 91
          lng := none } ∧
    (90 : ℚ) < 91 := by
  have h1 : edit_spot uid id Method.post ⟨n, c, cm, some "91", none⟩ store
      = (Response.redirectIndex "更新成功",
         store.map (fun s => if s.id = id then
           { spot with
             name := n
             city := c
             comment := cm
             lat := some 91
             lng := none } else s)) := by
    unfold edit_spot
    rw [hfind]
    simp [hown, parseCoord_91, parseCoord_none]
  refine ⟨h1, ?_, by norm_num⟩
  rw [h1]
  apply getById_replace
  · rw [hfind]
    rfl
  · exact getById_id store id spot hfind

/-- Witness for C5: user 7's spot 1, updated with lat 91, is stored with
latitude 91. -/
theorem edit_out_of_range_lat_stored_witness :
    getById (edit_spot 7 1 Method.post ⟨"Tower", none, none, some "91", none⟩
        [⟨1, "Tower", none, none, none, none, 7⟩]).2 1
      = some ⟨1, "Tower", none, none, some 91, none, 7⟩ := by
  have h := edit_out_of_range_lat_stored 7 1
    [⟨1, "Tower", none, none, none, none, 7⟩]
    ⟨1, "Tower", none, none, none, none, 7⟩ "Tower" none none
    (by decide) (by decide)
  exact h.2.1

/-- C8: creating Temple/Kyoto with lat 35.0 and lng 135.8 inserts the spot
with those exact values (as the rationals 35 and 679/5, the exact values of
the decimal literals), and fetching it by its assigned id — the lookup and
the owner's GET of the edit form — returns the identical record. -/
theorem create_then_get_round_trip :
    add_spot 5 ⟨"Temple", some "Kyoto", none, some "35.0", some "135.8"⟩ []
      = (Response.redirectIndex "新增成功",
         [⟨1, "Temple", some "Kyoto", none, some 35, some (679 / 5), 5⟩]) ∧
    getById [⟨1, "Temple", some "Kyoto", none, some 35, some (679 / 5), 5⟩] 1
      = some ⟨1, "Temple", some "Kyoto", none, some 35, some (679 / 5), 5⟩ ∧
    edit_spot 5 1 Method.get ⟨"", none, none, none, none⟩
        [⟨1, "Temple", some "Kyoto", none, some 35, some (679 / 5), 5⟩]
      = (Response.renderForm
           (some ⟨1, "Temple", some "Kyoto", none, some 35, some (679 / 5), 5⟩),
         [⟨1, "Temple", some "Kyoto", none, some 35, some (679 / 5), 5⟩]) := by
  refine ⟨?_, rfl, rfl⟩
  simp [add_spot, parseCoord_35, parseCoord_1358, nextId]

end TravelApp
